import Mathlib

/-!
# M_TMR_VERI: verification tool for MDIS drivers implementing the TMR profile

A shallow embedding of `M_TMR_VERI/COM/m_tmr_veri.c`.

* `int32` variables are integers (`Int`), `u_int32` variables are naturals; every
  conversion and every operation that can leave the 32-bit range is written out
  with an explicit reduction modulo 2^32 (`toU32`, `toI32`, `subU32`). Signed
  overflow (`tmrTicks * 1000`, `G_sigCnt++`) wraps around, as two-complement
  hardware does.
* The MDIS/UOS/UTL libraries and the device are an environment `Env` that fixes the
  result of every library call, one field per call site of `main`. For a call with
  an out-parameter the environment gives the content of the variable after the call.
* `main` returns the list of library calls and printed lines in program order
  (`Trace`) together with the way the run ended (`Outcome`). A line printed by
  `PrintMdisError` / `PrintUosError` is one output event; the lookup of the error
  text inside these helpers is part of that event.
* The two unbounded loops of `main` (the busy wait on `G_sigCnt` and the poll of the
  running counter) consume a finite list of observations from the environment; when
  the list runs out while the loop is still spinning the run is reported as
  `Outcome.hang`.
* The division by `timerResolution` at line 241 ends the run with `Outcome.fault`
  when `timerResolution` is 0.
* Constants and prototypes of the MEN headers are not part of the sources: header
  constants are kept symbolic (`StatCode`, `StatVal`) or are fields of `Platform`.
-/

namespace MTmrVeri

/-! ## 32-bit machine arithmetic -/

/-- Conversion of an integer value to `u_int32`: reduction modulo 2^32. -/
def toU32 (x : Int) : Nat := (x % 4294967296).toNat

/-- Conversion of an integer value to `int32` (two-complement wrap-around). -/
def toI32 (x : Int) : Int := (x + 2147483648) % 4294967296 - 2147483648

/-- The values an `int32` variable can hold. -/
abbrev InI32 (x : Int) : Prop := -2147483648 ≤ x ∧ x ≤ 2147483647

/-- Subtraction `a - b` of two `u_int32` operands. -/
def subU32 (a b : Nat) : Nat := toU32 ((a : Int) - (b : Int))

/-- Platform parameters that the C source leaves to the compiler and to headers that
are not part of the sources. -/
structure Platform where
  /-- Width of the C type `long` in bits. -/
  longBits : Nat
  /-- The C standard requires `long` to have at least 32 bits. -/
  longBits_ge : 32 ≤ longBits
  /-- Value the platform produces for `1L << n` where the C standard leaves the
  shift undefined (negative `n`, or `2^n` not representable in `long`). -/
  shlUndefined : Int → Int
  /-- The constant `M_CH_PROFILE_TMR` of `MEN/mdis_api.h`. -/
  M_CH_PROFILE_TMR : Int

/-- The expression `1L << timerBits`. -/
def shl1L (p : Platform) (timerBits : Int) : Int :=
  if 0 ≤ timerBits ∧ timerBits + 1 < p.longBits then 2 ^ timerBits.toNat
  else p.shlUndefined timerBits

/-- Lines 213-214: `maxTimerVal = 1L<<timerBits; maxTimerVal--;` with `maxTimerVal` a
`u_int32`: the shift result is converted to 32 bits, then decremented modulo 2^32. -/
def maxTimerVal (p : Platform) (timerBits : Int) : Nat :=
  subU32 (toU32 (shl1L p timerBits)) 1

/-- The expression `tmrTicks * 1000 / timerResolution` of line 241 on `int32`
operands: the product wraps to 32 bits, the division truncates toward zero. -/
def shouldBe (tmrTicks timerResolution : Int) : Int :=
  Int.tdiv (toI32 (tmrTicks * 1000)) timerResolution

/-- The condition of the poll loop, line 263:
`(u_int32)(tmrTicks) > (maxTimerVal - timerResolution)`; the `int32` operand
`timerResolution` is converted to `u_int32` and the subtraction is modulo 2^32. -/
def pollCond (tmrTicks : Int) (maxTimerVal : Nat) (timerResolution : Int) : Bool :=
  decide (toU32 tmrTicks > subU32 maxTimerVal (toU32 timerResolution))

/-! ## Library calls and output -/

/-- Status codes passed to `M_setstat` / `M_getstat`. -/
inductive StatCode
  | M_MK_IRQ_ENABLE
  | M_MK_CH_CURRENT
  | M_LL_CH_TYP
  | M_LL_CH_LEN
  | M_TMR_RESOLUTION
  | M_TMR_SIGSET_ZERO
  | M_TMR_SIGCLR_ZERO
  | M_TMR_RUN
  deriving DecidableEq

/-- Value argument of `M_setstat`: a number or one of the header constants. -/
inductive StatVal
  | num (v : Int)
  | TRUE
  | FALSE
  | UOS_SIG_USR1
  | M_TMR_START_ONE_SHOT
  | M_TMR_START_FREE_RUNNING
  | M_TMR_STOP
  deriving DecidableEq

/-- Calls of `main` into the device driver (MDIS API), the signal subsystem and the
clock (UOS). `M_write` is recorded with the value of its argument expression. -/
inductive Call
  | M_open (device : String)
  | UOS_SigInit
  | UOS_SigInstall
  | M_setstat (path : Int) (code : StatCode) (value : StatVal)
  | M_getstat (path : Int) (code : StatCode)
  | M_write (path : Int) (value : Int)
  | M_read (path : Int)
  | UOS_MsecTimerGet
  | UOS_Delay (msec : Nat)
  | UOS_SigMask
  | UOS_SigUnMask
  | UOS_SigRemove
  | UOS_SigExit
  | M_close (path : Int)
  deriving DecidableEq

/-- Lines printed by `main`, one constructor per `printf` / `fprintf` / print helper. -/
inductive Msg
  /-- Line 127, the error string of `UTL_ILLIOPT`. -/
  | illiopt (errstr : String)
  /-- The text of `usage()`. -/
  | usage
  /-- The line of `PrintMdisError(info)`. -/
  | mdisError (info : String)
  /-- The line of `PrintUosError(info)`. -/
  | uosError (info : String)
  /-- Line 188, channel does not implement the timer profile. -/
  | noTimerProfile (chan : Int)
  /-- Line 199. -/
  | bitTimer (timerBits : Int)
  /-- Line 205. -/
  | decrements (timerResolution : Int)
  /-- Line 221. -/
  | testingDuration
  /-- Lines 240 and 270: elapsed milliseconds and the expected value. -/
  | elapsed (ms : Nat) (should : Int)
  /-- Line 247. -/
  | testingStartStop
  /-- Line 288. -/
  | ticksDidNotStop (tmrTicks2 : Nat) (tmrTicks : Int)
  /-- Line 292. -/
  | timerDidNotStop
  /-- Line 303. -/
  | generating
  /-- Line 326. -/
  | signals (value : Int) (ms : Nat)
  deriving DecidableEq

/-- One observable step of a run. -/
inductive Event
  | call (c : Call)
  | out (m : Msg)
  deriving DecidableEq

abbrev Trace := List Event

/-- How a run of `main` ends: `return(code)`, a loop that is still spinning when the
observations run out, or the division by a zero `timerResolution` at line 241. -/
inductive Outcome
  | exit (code : Int)
  | hang
  | fault
  deriving DecidableEq

/-- Result of a run. -/
structure Run where
  trace : Trace
  outcome : Outcome
  deriving DecidableEq

/-- How a test phase hands over control: fall through to the next statement,
`goto abort`, or no return at all. -/
inductive Flow
  | next
  | abort
  | hang
  | fault
  deriving DecidableEq

/-! ## Environment -/

/-- Result of a call with an out-parameter (`M_getstat`, `M_read`): the return value
and the content of the variable behind the pointer after the call. -/
structure Resp where
  ret : Int
  out : Int
  deriving DecidableEq

/-- One pass of the periodic loop as seen from outside. -/
structure Window where
  /-- Result of `UOS_MsecTimerGet` at line 316. -/
  startTime : Nat
  /-- Number of `SigHandler` invocations since `G_sigCnt` was last set to 0 (line 300
  for the first pass, line 322 of the previous pass otherwise) and before the
  `UOS_SigMask` of this pass. No invocation takes place between `UOS_SigMask` and
  `UOS_SigUnMask`. -/
  sigs : Nat
  /-- Result of `UOS_MsecTimerGet` at line 324. -/
  endTime : Nat

/-- Results of all library calls of `main`, one field per call site. -/
structure Env where
  /-- Line 126, `UTL_ILLIOPT("c=?", buf)`: the error string, if any. -/
  UTL_ILLIOPT : Option String
  /-- Line 131, whether `UTL_TSTOPT("?")` is non-NULL. -/
  UTL_TSTOPT_help : Bool
  /-- Line 152, `UTL_TSTOPT("c=")`. -/
  UTL_TSTOPT_c : Option String
  /-- The libc function `atoi`. -/
  atoi : String → Int
  /-- Line 157. -/
  M_open : Int
  /-- Line 162. -/
  UOS_SigInit : Int
  /-- Line 167. -/
  UOS_SigInstall : Int
  /-- Line 176, `M_setstat(path, M_MK_CH_CURRENT, chan)`. -/
  setCurrentChannel : Int
  /-- Line 182, `M_getstat(path, M_LL_CH_TYP, &value)`. -/
  getChannelType : Resp
  /-- Line 195, `M_getstat(path, M_LL_CH_LEN, &timerBits)`. -/
  getChannelLen : Resp
  /-- Line 201, `M_getstat(path, M_TMR_RESOLUTION, &timerResolution)`. -/
  getResolution : Resp
  /-- Line 208, `M_setstat(path, M_TMR_SIGSET_ZERO, UOS_SIG_USR1)`. -/
  installSignal : Int
  /-- Line 224, `M_write` of the one-shot phase. -/
  write1 : Int
  /-- Line 231. -/
  startTime1 : Nat
  /-- Line 233, `M_setstat(path, M_TMR_RUN, M_TMR_START_ONE_SHOT)`. -/
  start1 : Int
  /-- Line 236: number of `SigHandler` invocations before the first evaluation of
  `G_sigCnt == 0` (head) and between consecutive evaluations (tail). -/
  sigsWait : List Nat
  /-- Line 238. -/
  endTime1 : Nat
  /-- Line 249, `M_write` of the start/stop phase. -/
  write2 : Int
  /-- Line 254. -/
  startTime2 : Nat
  /-- Line 256. -/
  start2 : Int
  /-- Line 260: results of the successive `M_read(path, &tmrTicks)` of the poll loop. -/
  pollReads : List Resp
  /-- Line 265. -/
  endTime2 : Nat
  /-- Line 267, `M_setstat(path, M_TMR_RUN, M_TMR_STOP)`. -/
  stop2 : Int
  /-- Line 277, `M_read(path, &tmrTicks)`. -/
  readA : Resp
  /-- Line 281, `M_getstat(path, M_TMR_RUN, &value)`. -/
  getRun : Resp
  /-- Line 284, `M_read(path, (int32 *)&tmrTicks2)`. -/
  readB : Resp
  /-- Line 305, `M_write` of the periodic phase. -/
  write3 : Int
  /-- Line 311. -/
  start3 : Int
  /-- Lines 314-328, pass `n` of the loop. -/
  window : Nat → Window
  /-- Line 337, `M_setstat(path, M_TMR_SIGCLR_ZERO, 0)`. -/
  removeSignal : Int
  /-- Line 340. -/
  UOS_SigRemove : Int
  /-- Line 344. -/
  UOS_SigExit : Int
  /-- Line 349. -/
  M_close : Int

/-! ## The program -/

/-- The statement `if (c) PrintMdisError(info);`. -/
def PrintMdisErrorIf (c : Prop) [Decidable c] (info : String) : Trace :=
  if c then [Event.out (Msg.mdisError info)] else []

/-- The statement `if (c) PrintUosError(info);`. -/
def PrintUosErrorIf (c : Prop) [Decidable c] (info : String) : Trace :=
  if c then [Event.out (Msg.uosError info)] else []

/-- Lines 102-105, `SigHandler`: `G_sigCnt++` on the `int32` counter. -/
def SigHandler (G_sigCnt : Int) : Int := toI32 (G_sigCnt + 1)

/-- The handler run `k` times. -/
def deliver (k : Nat) (G_sigCnt : Int) : Int := SigHandler^[k] G_sigCnt

/-- The expression `*argv[n]`: first character of the argument, the terminating NUL
for an empty argument. -/
def firstChar (arg : String) : Char := arg.toList.headD (Char.ofNat 0)

/-- Lines 139-143: scan of `argv[1..argc-1]` for the device name. -/
def findDevice : List String → Option String
  | [] => none
  | arg :: rest => if firstChar arg ≠ '-' then some arg else findDevice rest

/-- Line 236, `while( G_sigCnt == 0 );`. Returns `G_sigCnt` at loop exit, `none` when
the loop is still spinning after the last observation. -/
def waitLoop (G_sigCnt : Int) : List Nat → Option Int
  | [] => none
  | k :: ks =>
    let g := deliver k G_sigCnt
    if g = 0 then waitLoop g ks else some g

/-- Lines 259-263, the poll loop `do ... while (...)`. The flag is `true` when the
loop was left, `false` when it is still spinning after the last observation. -/
def pollLoop (path : Int) (maxTimerVal : Nat) (timerResolution : Int) :
    List Resp → Trace × Bool
  | [] => ([], false)
  | r :: rs =>
    let t := [Event.call (Call.M_read path)] ++ PrintMdisErrorIf (r.ret < 0) "read timer"
    let tmrTicks := r.out
    if pollCond tmrTicks maxTimerVal timerResolution then
      let rest := pollLoop path maxTimerVal timerResolution rs
      (t ++ rest.1, rest.2)
    else (t, true)

/-- Capability descriptor read during setup. -/
structure Caps where
  timerBits : Int
  timerResolution : Int
  deriving DecidableEq

/-- Lines 162-211: everything between `M_open` and the computation of `maxTimerVal`.
The result `none` is `goto abort`. -/
def setup (p : Platform) (e : Env) (path chan : Int) : Trace × Option Caps :=
  let t := [Event.call Call.UOS_SigInit]
  if e.UOS_SigInit < 0 then (t ++ [Event.out (Msg.uosError "UOS_SigInit")], none) else
  let t := t ++ [Event.call Call.UOS_SigInstall]
  if e.UOS_SigInstall < 0 then (t ++ [Event.out (Msg.uosError "UOS_SigInstall")], none) else
  let t := t ++ [Event.call (Call.M_setstat path StatCode.M_MK_IRQ_ENABLE StatVal.TRUE)]
  let t := t ++ [Event.call (Call.M_setstat path StatCode.M_MK_CH_CURRENT (StatVal.num chan))]
  if e.setCurrentChannel ≠ 0 then
    (t ++ [Event.out (Msg.mdisError "set current channel")], none) else
  let t := t ++ [Event.call (Call.M_getstat path StatCode.M_LL_CH_TYP)]
  if e.getChannelType.ret ≠ 0 then
    (t ++ [Event.out (Msg.mdisError "get channel type")], none) else
  let value := e.getChannelType.out
  if value ≠ p.M_CH_PROFILE_TMR then (t ++ [Event.out (Msg.noTimerProfile chan)], none) else
  let t := t ++ [Event.call (Call.M_getstat path StatCode.M_LL_CH_LEN)]
  if e.getChannelLen.ret ≠ 0 then
    (t ++ [Event.out (Msg.mdisError "get channel len")], none) else
  let timerBits := e.getChannelLen.out
  let t := t ++ [Event.out (Msg.bitTimer timerBits)]
  let t := t ++ [Event.call (Call.M_getstat path StatCode.M_TMR_RESOLUTION)]
  if e.getResolution.ret ≠ 0 then
    (t ++ [Event.out (Msg.mdisError "get timer resolution")], none) else
  let timerResolution := e.getResolution.out
  let t := t ++ [Event.out (Msg.decrements timerResolution)]
  let t := t ++ [Event.call (Call.M_setstat path StatCode.M_TMR_SIGSET_ZERO StatVal.UOS_SIG_USR1)]
  if e.installSignal < 0 then (t ++ [Event.out (Msg.mdisError "install signal")], none) else
  (t, some ⟨timerBits, timerResolution⟩)

/-- Lines 219-241: test duration of the one-shot timer. -/
def oneShot (e : Env) (path : Int) (timerResolution : Int) : Trace × Flow :=
  let tmrTicks := timerResolution
  let t := [Event.out Msg.testingDuration, Event.call (Call.M_write path tmrTicks)]
  if e.write1 < 0 then (t ++ [Event.out (Msg.mdisError "write preload")], Flow.abort) else
  let G_sigCnt : Int := 0
  let startTime := e.startTime1
  let t := t ++ [Event.call Call.UOS_MsecTimerGet]
  let t := t ++ [Event.call
    (Call.M_setstat path StatCode.M_TMR_RUN StatVal.M_TMR_START_ONE_SHOT)]
    ++ PrintMdisErrorIf (e.start1 < 0) "start timer"
  match waitLoop G_sigCnt e.sigsWait with
  | none => (t, Flow.hang)
  | some _ =>
    let endTime := e.endTime1
    let t := t ++ [Event.call Call.UOS_MsecTimerGet]
    if timerResolution = 0 then (t, Flow.fault) else
    (t ++ [Event.out (Msg.elapsed (subU32 endTime startTime)
      (shouldBe tmrTicks timerResolution))], Flow.next)

/-- Lines 273-294: read again to check if the counter really stopped. -/
def stopCheck (e : Env) (path : Int) : Trace :=
  let t := [Event.call (Call.M_read path)] ++ PrintMdisErrorIf (e.readA.ret < 0) "read timer"
  let tmrTicks := e.readA.out
  let t := t ++ [Event.call (Call.UOS_Delay 100)]
  let t := t ++ [Event.call (Call.M_getstat path StatCode.M_TMR_RUN)]
    ++ PrintMdisErrorIf (e.getRun.ret < 0) "get timer state"
  let value := e.getRun.out
  let t := t ++ [Event.call (Call.M_read path)]
    ++ PrintMdisErrorIf (e.readB.ret < 0) "read timer"
  let tmrTicks2 : Nat := toU32 e.readB.out
  let t := t ++ (if tmrTicks2 ≠ toU32 tmrTicks
    then [Event.out (Msg.ticksDidNotStop tmrTicks2 tmrTicks)] else [])
  t ++ (if value ≠ 0 then [Event.out Msg.timerDidNotStop] else [])

/-- Lines 247-294: start/stop timer. -/
def startStop (e : Env) (path : Int) (maxTimerVal : Nat) (timerResolution : Int) :
    Trace × Flow :=
  let t := [Event.out Msg.testingStartStop, Event.call (Call.M_write path maxTimerVal)]
  if e.write2 < 0 then (t ++ [Event.out (Msg.mdisError "write preload")], Flow.abort) else
  let startTime := e.startTime2
  let t := t ++ [Event.call Call.UOS_MsecTimerGet]
  let t := t ++ [Event.call
    (Call.M_setstat path StatCode.M_TMR_RUN StatVal.M_TMR_START_ONE_SHOT)]
    ++ PrintMdisErrorIf (e.start2 < 0) "start timer"
  let poll := pollLoop path maxTimerVal timerResolution e.pollReads
  if poll.2 = false then (t ++ poll.1, Flow.hang) else
  let t := t ++ poll.1
  let endTime := e.endTime2
  let t := t ++ [Event.call Call.UOS_MsecTimerGet]
  let t := t ++ [Event.call (Call.M_setstat path StatCode.M_TMR_RUN StatVal.M_TMR_STOP)]
    ++ PrintMdisErrorIf (e.stop2 < 0) "start timer"
  let t := t ++ [Event.out (Msg.elapsed (subU32 endTime startTime) 1000)]
  (t ++ stopCheck e path, Flow.next)

/-- Lines 320-323: `UOS_SigMask(); value = G_sigCnt; G_sigCnt = 0; UOS_SigUnMask();`.
Returns `value` and the new `G_sigCnt`. -/
def snapshot (G_sigCnt : Int) : Int × Int :=
  let value := G_sigCnt
  let G_sigCnt := 0
  (value, G_sigCnt)

/-- Lines 314-328: the loop `for( n=0; n<10; n++ )`, with `todo = 10 - n` passes left. -/
def periodicLoop (e : Env) : Nat → Nat → Int → Trace
  | 0, _, _ => []
  | todo + 1, n, G_sigCnt =>
    let startTime := (e.window n).startTime
    let G_sigCnt := deliver (e.window n).sigs G_sigCnt
    let s := snapshot G_sigCnt
    let value := s.1
    let G_sigCnt := s.2
    let endTime := (e.window n).endTime
    [Event.call Call.UOS_MsecTimerGet, Event.call (Call.UOS_Delay 1000),
     Event.call Call.UOS_SigMask, Event.call Call.UOS_SigUnMask,
     Event.call Call.UOS_MsecTimerGet,
     Event.out (Msg.signals value (subU32 endTime startTime))]
    ++ periodicLoop e todo (n + 1) G_sigCnt

/-- Lines 300-328: periodic timer. -/
def periodic (e : Env) (path : Int) (timerResolution : Int) : Trace × Flow :=
  let G_sigCnt : Int := 0
  let tmrTicks := Int.tdiv timerResolution 100
  let t := [Event.out Msg.generating, Event.call (Call.M_write path tmrTicks)]
  if e.write3 < 0 then (t ++ [Event.out (Msg.mdisError "write preload")], Flow.abort) else
  let t := t ++ [Event.call
    (Call.M_setstat path StatCode.M_TMR_RUN StatVal.M_TMR_START_FREE_RUNNING)]
    ++ PrintMdisErrorIf (e.start3 < 0) "start timer"
  (t ++ periodicLoop e 10 0 G_sigCnt, Flow.next)

/-- Lines 333-350: the statements after the label `abort`. -/
def cleanup (e : Env) (path : Int) : Trace :=
  [Event.call (Call.M_setstat path StatCode.M_MK_IRQ_ENABLE StatVal.FALSE)]
  ++ [Event.call (Call.M_setstat path StatCode.M_TMR_SIGCLR_ZERO (StatVal.num 0))]
  ++ PrintMdisErrorIf (e.removeSignal < 0) "remove signal"
  ++ [Event.call Call.UOS_SigRemove]
  ++ PrintUosErrorIf (e.UOS_SigRemove < 0) "UOS_SigInstall"
  ++ [Event.call Call.UOS_SigExit]
  ++ PrintUosErrorIf (e.UOS_SigExit < 0) "UOS_SigExit"
  ++ [Event.call (Call.M_close path)]
  ++ PrintMdisErrorIf (e.M_close < 0) "close"

/-- Sequencing of two program parts: the second runs when the first falls through. -/
def andThen (a b : Trace × Flow) : Trace × Flow :=
  match a.2 with
  | Flow.next => (a.1 ++ b.1, b.2)
  | f => (a.1, f)

/-- Lines 162-328: from `UOS_SigInit` to the end of the periodic loop. -/
def session (p : Platform) (e : Env) (path chan : Int) : Trace × Flow :=
  match setup p e path chan with
  | (t, none) => (t, Flow.abort)
  | (t, some c) =>
    let maxTimerVal := maxTimerVal p c.timerBits
    andThen (t, Flow.next)
      (andThen (oneShot e path c.timerResolution)
        (andThen (startStop e path maxTimerVal c.timerResolution)
          (periodic e path c.timerResolution)))

/-- Line 152: `chan = ((str = (UTL_TSTOPT("c="))) ? atoi(str) : 1 );`. -/
def channel (e : Env) : Int :=
  match e.UTL_TSTOPT_c with
  | some str => e.atoi str
  | none => 1

/-- The function `main` (lines 116-353); `argv` includes the program name. -/
def main (p : Platform) (argv : List String) (e : Env) : Run :=
  match e.UTL_ILLIOPT with
  | some errstr => ⟨[Event.out (Msg.illiopt errstr)], Outcome.exit 1⟩
  | none =>
    if e.UTL_TSTOPT_help then ⟨[Event.out Msg.usage], Outcome.exit 1⟩ else
    match findDevice (argv.drop 1) with
    | none => ⟨[Event.out Msg.usage], Outcome.exit 1⟩
    | some device =>
      let chan := channel e
      let path := e.M_open
      let t := [Event.call (Call.M_open device)]
      if path < 0 then ⟨t ++ [Event.out (Msg.mdisError "open")], Outcome.exit 1⟩ else
      let s := session p e path chan
      match s.2 with
      | Flow.hang => ⟨t ++ s.1, Outcome.hang⟩
      | Flow.fault => ⟨t ++ s.1, Outcome.fault⟩
      | _ => ⟨t ++ s.1 ++ cleanup e path, Outcome.exit 0⟩

/-! ## Observations on traces -/

/-- The library call of an event, if it is one. -/
def callOf : Event → Option Call
  | Event.call c => some c
  | Event.out _ => none

/-- The library calls of a trace, in order. -/
def calls (t : Trace) : List Call := t.filterMap callOf

/-- The value passed to `M_write`, if the event is such a call. -/
def writeOf : Event → Option Int
  | Event.call (Call.M_write _ v) => some v
  | _ => none

/-- The values passed to `M_write`, in order. -/
def writes (t : Trace) : List Int := t.filterMap writeOf

/-- Whether an event is a run-mode command `M_setstat(path, M_TMR_RUN, ...)`. -/
def isRunCommand : Event → Bool
  | Event.call (Call.M_setstat _ StatCode.M_TMR_RUN _) => true
  | _ => false

/-- Whether an event is an `M_write`. -/
def isWrite : Event → Bool
  | Event.call (Call.M_write _ _) => true
  | _ => false

/-- The five calls after the label `abort`. -/
def cleanupCalls (path : Int) : List Call :=
  [Call.M_setstat path StatCode.M_MK_IRQ_ENABLE StatVal.FALSE,
   Call.M_setstat path StatCode.M_TMR_SIGCLR_ZERO (StatVal.num 0),
   Call.UOS_SigRemove, Call.UOS_SigExit, Call.M_close path]

/-! ## Example platform and device -/

/-- An LP64 platform (64-bit `long`). -/
def lp64 : Platform :=
  { longBits := 64, longBits_ge := by decide, shlUndefined := fun _ => 0,
    M_CH_PROFILE_TMR := 1 }

/-- A responsive device with a 16-bit counter and 1000 decrements per second on which
every call succeeds; 100 signals arrive in every window of the periodic phase. -/
def simdev : Env :=
  { UTL_ILLIOPT := none, UTL_TSTOPT_help := false, UTL_TSTOPT_c := some "2",
    atoi := fun _ => 2,
    M_open := 3, UOS_SigInit := 0, UOS_SigInstall := 0, setCurrentChannel := 0,
    getChannelType := ⟨0, 1⟩, getChannelLen := ⟨0, 16⟩, getResolution := ⟨0, 1000⟩,
    installSignal := 0,
    write1 := 0, startTime1 := 5000, start1 := 0, sigsWait := [0, 0, 1], endTime1 := 6000,
    write2 := 0, startTime2 := 6001, start2 := 0,
    pollReads := [⟨0, 65535⟩, ⟨0, 65000⟩, ⟨0, 64535⟩], endTime2 := 7001, stop2 := 0,
    readA := ⟨0, 64530⟩, getRun := ⟨0, 0⟩, readB := ⟨0, 64530⟩,
    write3 := 0, start3 := 0,
    window := fun n => ⟨7200 + 1000 * n, 100, 8200 + 1000 * n⟩,
    removeSignal := 0, UOS_SigRemove := 0, UOS_SigExit := 0, M_close := 0 }

/-- A device as `simdev` whose counter is clocked with 33 MHz and is 32 bits wide. -/
def dev33MHz : Env :=
  { simdev with
    getChannelLen := ⟨0, 32⟩, getResolution := ⟨0, 33000000⟩,
    pollReads := [⟨0, -1⟩, ⟨0, -33000001⟩] }

/-- A device as `simdev` with a 16-bit counter clocked with 1 MHz: one round trip of
the counter takes about 65 ms. -/
def dev1MHz : Env :=
  { simdev with getResolution := ⟨0, 1000000⟩, pollReads := [⟨0, 65535⟩] }

/-- Session setup (lines 157-211) succeeded: every call was accepted by its check and
the channel has the timer profile. -/
abbrev SetupOk (p : Platform) (e : Env) : Prop :=
  0 ≤ e.M_open ∧ 0 ≤ e.UOS_SigInit ∧ 0 ≤ e.UOS_SigInstall ∧ e.setCurrentChannel = 0 ∧
  e.getChannelType.ret = 0 ∧ e.getChannelType.out = p.M_CH_PROFILE_TMR ∧
  e.getChannelLen.ret = 0 ∧ e.getResolution.ret = 0 ∧ 0 ≤ e.installSignal

/-- The three `M_write` calls of the test phases succeed. -/
abbrev WritesOk (e : Env) : Prop := 0 ≤ e.write1 ∧ 0 ≤ e.write2 ∧ 0 ≤ e.write3

/-- The device answers: a signal arrives during the busy wait of line 236 and one of
the readings of the poll loop of lines 259-263 ends that loop. -/
abbrev Responsive (p : Platform) (e : Env) : Prop :=
  (waitLoop 0 e.sigsWait).isSome = true ∧
  (pollLoop e.M_open (maxTimerVal p e.getChannelLen.out) e.getResolution.out
    e.pollReads).2 = true

/-- A device as `simdev` on which `M_open` fails. -/
def devNoOpen : Env := { simdev with M_open := -1 }

/-- A device as `simdev` whose selected channel does not have the timer profile. -/
def devNoTimer : Env := { simdev with getChannelType := ⟨0, 7⟩ }

/-- Control reaches the label `abort`, by falling through or by `goto`. -/
abbrev ReachesAbort (f : Flow) : Prop := f = Flow.next ∨ f = Flow.abort

/-- An event that is neither an `M_write` nor a run-mode command. -/
abbrev Quiet (ev : Event) : Prop := isWrite ev = false ∧ isRunCommand ev = false

/-- The device answers both waiting loops, stated on the environment alone: between
two evaluations of `G_sigCnt == 0` at line 236 the handler runs at least once (and
fewer than 2^32 times, so that the `int32` counter is not back at 0), and one of the
readings of the poll loop makes the loop condition of line 263 false. -/
abbrev Answers (p : Platform) (e : Env) : Prop :=
  (∃ k ∈ e.sigsWait, 0 < k ∧ k < 4294967296) ∧
  (∃ r ∈ e.pollReads,
    pollCond r.out (maxTimerVal p e.getChannelLen.out) e.getResolution.out = false)

/-- A device as `simdev` on which every call succeeds but whose counter does not
count: every reading of the poll loop is the preload 65535. -/
def devStuck : Env :=
  { simdev with pollReads := [⟨0, 65535⟩, ⟨0, 65535⟩, ⟨0, 65535⟩, ⟨0, 65535⟩] }

/-- A device as `simdev` on which every call succeeds but which never signals that the
counter reached zero. -/
def devNoSignal : Env := { simdev with sigsWait := [0, 0, 0, 0] }

/-! ## Machine arithmetic: lemmas -/

theorem toU32_lt (x : Int) : toU32 x < 4294967296 := by
  unfold toU32; omega

theorem toU32_of_nonneg (x : Int) (h0 : 0 ≤ x) (h1 : x < 4294967296) :
    (toU32 x : Int) = x := by
  unfold toU32; omega

theorem toU32_toI32 (v : Nat) (h : v < 4294967296) : toU32 (toI32 v) = v := by
  unfold toU32 toI32; omega

theorem toU32_injOn (x y : Int) (hx : InI32 x) (hy : InI32 y) :
    toU32 x = toU32 y ↔ x = y := by
  unfold toU32; unfold InI32 at hx hy; omega

theorem toI32_of_inI32 (x : Int) (h : InI32 x) : toI32 x = x := by
  unfold toI32; unfold InI32 at h; omega

theorem maxTimerVal_lt (p : Platform) (timerBits : Int) :
    maxTimerVal p timerBits < 4294967296 := by
  unfold maxTimerVal subU32; exact toU32_lt _

/-! ## Traces: lemmas -/

@[simp] theorem calls_append (a b : Trace) : calls (a ++ b) = calls a ++ calls b := by
  simp [calls]

theorem calls_cons_call (c : Call) (t : Trace) :
    calls (Event.call c :: t) = c :: calls t := rfl

@[simp] theorem writes_append (a b : Trace) : writes (a ++ b) = writes a ++ writes b := by
  simp [writes]

@[simp] theorem calls_PrintMdisErrorIf (c : Prop) [Decidable c] (info : String) :
    calls (PrintMdisErrorIf c info) = [] := by
  unfold PrintMdisErrorIf calls; split_ifs <;> simp [callOf]

@[simp] theorem calls_PrintUosErrorIf (c : Prop) [Decidable c] (info : String) :
    calls (PrintUosErrorIf c info) = [] := by
  unfold PrintUosErrorIf calls; split_ifs <;> simp [callOf]

@[simp] theorem writes_PrintMdisErrorIf (c : Prop) [Decidable c] (info : String) :
    writes (PrintMdisErrorIf c info) = [] := by
  unfold PrintMdisErrorIf writes; split_ifs <;> simp [writeOf]

@[simp] theorem writes_PrintUosErrorIf (c : Prop) [Decidable c] (info : String) :
    writes (PrintUosErrorIf c info) = [] := by
  unfold PrintUosErrorIf writes; split_ifs <;> simp [writeOf]

/-! ## Claims on the arithmetic of `main` -/

/-- Lines 213-214 on a width of at most 32 bits for which the shift is defined. -/
theorem maxTimerVal_of_le (p : Platform) (W : Nat) (h32 : W ≤ 32)
    (hlong : W + 1 < p.longBits) : maxTimerVal p (W : Int) = 2 ^ W - 1 := by
  have hc : (0 : Int) ≤ (W : Int) ∧ (W : Int) + 1 < (p.longBits : Int) := by
    constructor <;> omega
  unfold maxTimerVal shl1L
  rw [if_pos hc, Int.toNat_ofNat]
  clear hc hlong
  interval_cases W <;> decide

/-- C1 (as amended): for every counter width W with 1 <= W <= 32 on a platform whose
`long` has more than W + 1 bits, `maxTimerVal` as computed by lines 213-214 equals
2^W - 1. -/
theorem maxTimerVal_eq (p : Platform) (W : Nat) (h1 : 1 ≤ W) (h32 : W ≤ 32)
    (hlong : W + 1 < p.longBits) : maxTimerVal p (W : Int) = 2 ^ W - 1 := by
  have _ := h1
  exact maxTimerVal_of_le p W h32 hlong

/-- Witness for C1: a 32-bit counter on an LP64 platform. -/
theorem maxTimerVal_eq_witness :
    (1 ≤ 32 ∧ 32 ≤ 32 ∧ 32 + 1 < lp64.longBits) ∧
      maxTimerVal lp64 ((32 : Nat) : Int) = 2 ^ 32 - 1 :=
  ⟨by decide, maxTimerVal_eq lp64 32 (by decide) (by decide) (by decide)⟩

/-- C1 as stated fails: for the width W = 33 the 32-bit variable `maxTimerVal` holds
2^32 - 1, not 2^33 - 1. -/
theorem maxTimerVal_width33 :
    maxTimerVal lp64 33 = 4294967295 ∧ maxTimerVal lp64 33 ≠ 2 ^ 33 - 1 := by
  decide

/-- The expected value of line 241 is 1000 as long as the product
`tmrTicks * 1000` fits in an `int32`. -/
theorem shouldBe_small (R : Int) (h0 : 0 < R) (h1 : R ≤ 2147483) : shouldBe R R = 1000 := by
  unfold shouldBe
  rw [toI32_of_inI32 _ (by constructor <;> omega)]
  exact Int.mul_tdiv_cancel_left 1000 (by omega)

/-- The expected value of line 241 differs from 1000 for every resolution above
2147483 that an `int32` can hold. -/
theorem shouldBe_large (R : Int) (h0 : 2147483 < R) (h1 : R ≤ 2147483647) :
    shouldBe R R ≠ 1000 := by
  unfold shouldBe
  have hy : toI32 (R * 1000) ≤ 2147483647 := by unfold toI32; omega
  generalize toI32 (R * 1000) = y at hy
  intro h
  by_cases hneg : 0 ≤ y
  · rw [Int.tdiv_eq_ediv hneg (by omega)] at h
    have := Int.ediv_lt_of_lt_mul (a := y) (b := 1000) (c := R) (by omega) (by omega)
    omega
  · have h2 : y.tdiv R = -((-y).tdiv R) := by rw [Int.neg_tdiv, neg_neg]
    have h3 := Int.tdiv_nonneg (a := -y) (b := R) (by omega) (by omega)
    omega

/-- C2 fails on the code: for a device that reports 33000000 decrements per second
the product `tmrTicks * 1000` leaves the `int32` range and the one-shot phase of
`main` prints "Should be: -41" instead of 1000. -/
theorem shouldBe_overflow :
    shouldBe 33000000 33000000 = -41 ∧
      Event.out (Msg.elapsed 1000 (-41)) ∈
        (main lp64 ["m_tmr_veri", "tmr_1"] dev33MHz).trace := by
  decide

/-- The loop condition for a reading within the counter range when one round trip of
the counter takes at least one second. -/
theorem pollCond_of_range (m : Nat) (R : Int) (v : Nat) (hm : m < 4294967296)
    (hR0 : 0 ≤ R) (hR : R ≤ m) (hv : v ≤ m) :
    pollCond (toI32 v) m R = false ↔ (m : Int) - v ≥ R := by
  unfold pollCond
  rw [toU32_toI32 v (by omega), decide_eq_false_iff_not]
  have hRu : (toU32 R : Int) = R := toU32_of_nonneg R hR0 (by omega)
  have hsub : (subU32 m (toU32 R) : Int) = (m : Int) - R := by
    unfold subU32
    rw [hRu]
    exact toU32_of_nonneg _ (by omega) (by omega)
  omega

theorem pollLoop_calls_ne_nil (path : Int) (m : Nat) (R : Int) (l : List Resp)
    (h : (pollLoop path m R l).2 = true) : calls (pollLoop path m R l).1 ≠ [] := by
  cases l with
  | nil => simp [pollLoop] at h
  | cons r rs =>
    simp only [pollLoop]
    split_ifs <;> simp [calls, callOf]

/-- The poll loop is left after its first reading exactly when the loop condition is
false for that reading. -/
theorem pollLoop_first (path : Int) (m : Nat) (R : Int) (r : Resp) (rs : List Resp) :
    ((pollLoop path m R (r :: rs)).2 = true ∧
        calls (pollLoop path m R (r :: rs)).1 = [Call.M_read path]) ↔
      pollCond r.out m R = false := by
  by_cases hc : pollCond r.out m R = true
  · have hne := pollLoop_calls_ne_nil path m R rs
    simp only [pollLoop, hc, if_true]
    constructor
    · rintro ⟨hflag, hcalls⟩
      exfalso
      apply hne hflag
      have hnil : calls [] = [] := rfl
      simpa only [calls_append, calls_cons_call, calls_PrintMdisErrorIf, hnil,
        List.nil_append, List.append_nil, List.cons_append, List.cons.injEq, true_and]
        using hcalls
    · intro h; cases h
  · have hf : pollCond r.out m R = false := by simpa using hc
    simp only [pollLoop, hf]
    simp [calls, callOf, PrintMdisErrorIf]

/-- C10 (as amended): when one round trip of the counter takes at least one second,
that is 0 <= R <= maxTimerVal, then for every counter reading v with
0 <= v <= maxTimerVal (held by the `int32` variable `tmrTicks`) the condition of the
poll loop is false, and the loop is left after this reading, if and only if
maxTimerVal - v >= R over the integers. -/
theorem pollCond_false_iff (p : Platform) (W R : Int) (v : Nat)
    (hR0 : 0 ≤ R) (hR : R ≤ maxTimerVal p W) (hv : v ≤ maxTimerVal p W) :
    (pollCond (toI32 v) (maxTimerVal p W) R = false ↔ (maxTimerVal p W : Int) - v ≥ R) ∧
      ∀ (path ret : Int) (rs : List Resp),
        ((pollLoop path (maxTimerVal p W) R (⟨ret, toI32 v⟩ :: rs)).2 = true ∧
          calls (pollLoop path (maxTimerVal p W) R (⟨ret, toI32 v⟩ :: rs)).1 =
            [Call.M_read path]) ↔ (maxTimerVal p W : Int) - v ≥ R := by
  have key := pollCond_of_range (maxTimerVal p W) R v (maxTimerVal_lt p W) hR0 hR hv
  refine ⟨key, fun path ret rs => ?_⟩
  rw [pollLoop_first]
  exact key

/-- Witness for C10: 16-bit counter, 1000 decrements per second, reading 64535. -/
theorem pollCond_false_iff_witness :
    ((0 : Int) ≤ 1000 ∧ (1000 : Int) ≤ maxTimerVal lp64 16 ∧ 64535 ≤ maxTimerVal lp64 16) ∧
      (pollCond (toI32 (64535 : Nat)) (maxTimerVal lp64 16) 1000 = false ↔
        (maxTimerVal lp64 16 : Int) - (64535 : Nat) ≥ 1000) :=
  ⟨by decide, (pollCond_false_iff lp64 16 1000 64535 (by decide) (by decide) (by decide)).1⟩

/-- C10 as stated fails: with a 16-bit counter and 1000000 decrements per second the
difference `maxTimerVal - timerResolution` wraps around, and the poll loop is left
after the very first reading 65535 although the counter has not moved. -/
theorem pollCond_wraps :
    pollCond (toI32 (65535 : Nat)) (maxTimerVal lp64 16) 1000000 = false ∧
      ¬ ((maxTimerVal lp64 16 : Int) - (65535 : Nat) ≥ 1000000) ∧
      (pollLoop 3 (maxTimerVal lp64 16) 1000000 dev1MHz.pollReads).2 = true ∧
      calls (pollLoop 3 (maxTimerVal lp64 16) 1000000 dev1MHz.pollReads).1 =
        [Call.M_read 3] := by
  decide

theorem SigHandler_toI32 (x : Int) : SigHandler (toI32 x) = toI32 (x + 1) := by
  unfold SigHandler toI32; omega

theorem deliver_zero_eq (k : Nat) : deliver k 0 = toI32 k := by
  induction k with
  | zero => simp [deliver, toI32]
  | succ k ih =>
    unfold deliver at ih ⊢
    rw [Function.iterate_succ_apply', ih, SigHandler_toI32]
    push_cast; rfl

theorem findDevice_append (pre post : List String) (d : String)
    (hpre : ∀ a ∈ pre, firstChar a = '-') (hd : firstChar d ≠ '-') :
    findDevice (pre ++ d :: post) = some d := by
  induction pre with
  | nil => simp [findDevice, hd]
  | cons a pre ih =>
    have ha : firstChar a = '-' := hpre a (List.mem_cons_self a pre)
    have hrest : ∀ b ∈ pre, firstChar b = '-' := fun b hb => hpre b (List.mem_cons_of_mem a hb)
    simp [findDevice, ha, ih hrest]

theorem findDevice_none (l : List String) (h : ∀ a ∈ l, firstChar a = '-') :
    findDevice l = none := by
  induction l with
  | nil => rfl
  | cons a l ih =>
    have ha : firstChar a = '-' := h a (List.mem_cons_self a l)
    have hrest : ∀ b ∈ l, firstChar b = '-' := fun b hb => h b (List.mem_cons_of_mem a hb)
    simp [findDevice, ha, ih hrest]

/-! ## Claims on the test phases -/

/-- C5: in the stop verification (lines 273-294), for all `int32` values left by the
two `M_read` calls and by the state query, the line "timer ticks did not stop" is
printed if and only if the two readings differ, and the line "timer did not stop" is
printed if and only if the run state is non-zero. -/
theorem stopCheck_messages (e : Env) (path : Int)
    (hA : InI32 e.readA.out) (hB : InI32 e.readB.out) :
    ((∃ a b, Event.out (Msg.ticksDidNotStop a b) ∈ stopCheck e path) ↔
        e.readB.out ≠ e.readA.out) ∧
      (Event.out Msg.timerDidNotStop ∈ stopCheck e path ↔ e.getRun.out ≠ 0) := by
  have hinj := toU32_injOn e.readB.out e.readA.out hB hA
  unfold stopCheck PrintMdisErrorIf
  constructor
  · by_cases h : e.readB.out = e.readA.out
    · simp [h]
    · have hne : toU32 e.readB.out ≠ toU32 e.readA.out := fun c => h (hinj.mp c)
      simp [h, hne]
  · by_cases hv : e.getRun.out = 0
    · simp [hv]
    · simp [hv]

/-- Witness for C5: the device `simdev`, whose two readings agree. -/
theorem stopCheck_messages_witness :
    (InI32 simdev.readA.out ∧ InI32 simdev.readB.out) ∧
      (Event.out Msg.timerDidNotStop ∈ stopCheck simdev 3 ↔ simdev.getRun.out ≠ 0) :=
  ⟨by decide, (stopCheck_messages simdev 3 (by decide) (by decide)).2⟩

theorem calls_cleanup (e : Env) (path : Int) : calls (cleanup e path) = cleanupCalls path := by
  unfold cleanup cleanupCalls
  simp [calls, callOf, PrintMdisErrorIf, PrintUosErrorIf]
  split_ifs <;> simp [callOf]

theorem writes_cleanup (e : Env) (path : Int) : writes (cleanup e path) = [] := by
  unfold cleanup
  simp [writes, writeOf, PrintMdisErrorIf, PrintUosErrorIf]

theorem quiet_cleanup (e : Env) (path : Int) : ∀ ev ∈ cleanup e path, Quiet ev := by
  unfold cleanup PrintMdisErrorIf PrintUosErrorIf
  split_ifs <;> simp [Quiet, isWrite, isRunCommand]

theorem quiet_setup (p : Platform) (e : Env) (path chan : Int) :
    ∀ ev ∈ (setup p e path chan).1, Quiet ev := by
  simp only [setup]
  split_ifs
  all_goals simp [Quiet, isWrite, isRunCommand]

theorem writes_setup (p : Platform) (e : Env) (path chan : Int) :
    writes (setup p e path chan).1 = [] := by
  simp only [setup]
  split_ifs
  all_goals simp [writes, writeOf]

theorem setup_caps (p : Platform) (e : Env) (path chan : Int) (c : Caps)
    (h : (setup p e path chan).2 = some c) :
    c = ⟨e.getChannelLen.out, e.getResolution.out⟩ := by
  simp only [setup] at h
  split_ifs at h
  all_goals simp at h
  exact h.symm

theorem setup_ok (p : Platform) (e : Env) (chan : Int) (h : SetupOk p e) :
    (setup p e e.M_open chan).2 = some ⟨e.getChannelLen.out, e.getResolution.out⟩ := by
  obtain ⟨_, h1, h2, h3, h4, h5, h6, h7, h8⟩ := h
  simp only [setup]
  simp [not_lt.mpr h1, not_lt.mpr h2, h3, h4, h5, h6, h7, not_lt.mpr h8]

theorem setup_mismatch (p : Platform) (e : Env) (path chan : Int)
    (hmis : e.getChannelType.out ≠ p.M_CH_PROFILE_TMR) : (setup p e path chan).2 = none := by
  simp only [setup]
  split_ifs
  all_goals rfl

theorem andThen_next (a b : Trace × Flow) (h : a.2 = Flow.next) :
    andThen a b = (a.1 ++ b.1, b.2) := by
  unfold andThen; rw [h]

theorem andThen_abort (a b : Trace × Flow) (h : a.2 = Flow.abort) :
    andThen a b = (a.1, Flow.abort) := by
  unfold andThen; rw [h]

theorem andThen_reaches (a b : Trace × Flow) (ha : ReachesAbort a.2) (hb : ReachesAbort b.2) :
    ReachesAbort (andThen a b).2 := by
  rcases ha with h | h
  · rw [andThen_next a b h]; exact hb
  · rw [andThen_abort a b h]; exact Or.inr rfl

theorem session_of_none (p : Platform) (e : Env) (path chan : Int)
    (h : (setup p e path chan).2 = none) :
    session p e path chan = ((setup p e path chan).1, Flow.abort) := by
  unfold session
  cases hs : setup p e path chan with
  | mk t oc =>
    rw [hs] at h
    simp only at h
    subst h
    rfl

theorem session_of_some (p : Platform) (e : Env) (path chan : Int) (c : Caps)
    (h : (setup p e path chan).2 = some c) :
    session p e path chan =
      andThen ((setup p e path chan).1, Flow.next)
        (andThen (oneShot e path c.timerResolution)
          (andThen (startStop e path (maxTimerVal p c.timerBits) c.timerResolution)
            (periodic e path c.timerResolution))) := by
  unfold session
  cases hs : setup p e path chan with
  | mk t oc =>
    rw [hs] at h
    simp only at h
    subst h
    rfl

theorem oneShot_flow (e : Env) (path R : Int) (hw : 0 ≤ e.write1) (hR : R ≠ 0)
    (hwait : (waitLoop 0 e.sigsWait).isSome = true) : (oneShot e path R).2 = Flow.next := by
  unfold oneShot
  rw [if_neg (not_lt.mpr hw)]
  cases hg : waitLoop 0 e.sigsWait with
  | none => rw [hg] at hwait; simp at hwait
  | some g => simp only [hg]; simp [hR]

theorem oneShot_reaches (e : Env) (path R : Int) (hR : R ≠ 0)
    (hwait : (waitLoop 0 e.sigsWait).isSome = true) : ReachesAbort (oneShot e path R).2 := by
  by_cases hw : 0 ≤ e.write1
  · exact Or.inl (oneShot_flow e path R hw hR hwait)
  · unfold oneShot
    rw [if_pos (not_le.mp hw)]
    exact Or.inr rfl

theorem startStop_flow (e : Env) (path : Int) (m : Nat) (R : Int) (hw : 0 ≤ e.write2)
    (hpoll : (pollLoop path m R e.pollReads).2 = true) : (startStop e path m R).2 = Flow.next := by
  unfold startStop
  rw [if_neg (not_lt.mpr hw)]
  simp [hpoll]

theorem startStop_reaches (e : Env) (path : Int) (m : Nat) (R : Int)
    (hpoll : (pollLoop path m R e.pollReads).2 = true) :
    ReachesAbort (startStop e path m R).2 := by
  by_cases hw : 0 ≤ e.write2
  · exact Or.inl (startStop_flow e path m R hw hpoll)
  · unfold startStop
    rw [if_pos (not_le.mp hw)]
    exact Or.inr rfl

theorem periodic_reaches (e : Env) (path R : Int) : ReachesAbort (periodic e path R).2 := by
  unfold periodic
  split_ifs
  · exact Or.inr rfl
  · exact Or.inl rfl

theorem periodic_flow (e : Env) (path R : Int) (hw : 0 ≤ e.write3) :
    (periodic e path R).2 = Flow.next := by
  unfold periodic
  rw [if_neg (not_lt.mpr hw)]

theorem session_reaches (p : Platform) (e : Env) (chan : Int)
    (hR : e.getResolution.out ≠ 0) (hresp : Responsive p e) :
    ReachesAbort (session p e e.M_open chan).2 := by
  cases hs : (setup p e e.M_open chan).2 with
  | none => rw [session_of_none p e _ chan hs]; exact Or.inr rfl
  | some c =>
    rw [session_of_some p e _ chan c hs]
    have hc := setup_caps p e _ chan c hs
    subst hc
    exact andThen_reaches _ _ (Or.inl rfl)
      (andThen_reaches _ _ (oneShot_reaches e _ _ hR hresp.1)
        (andThen_reaches _ _ (startStop_reaches e _ _ _ hresp.2) (periodic_reaches e _ _)))

theorem main_of_reaches (p : Platform) (argv : List String) (e : Env) (device : String)
    (hargs : e.UTL_ILLIOPT = none) (hhelp : e.UTL_TSTOPT_help = false)
    (hdev : findDevice (argv.drop 1) = some device) (hopen : 0 ≤ e.M_open)
    (hf : ReachesAbort (session p e e.M_open (channel e)).2) :
    main p argv e =
      ⟨[Event.call (Call.M_open device)] ++ (session p e e.M_open (channel e)).1
        ++ cleanup e e.M_open, Outcome.exit 0⟩ := by
  unfold main
  simp only [hargs, hhelp, hdev]
  rw [if_neg (by simp), if_neg (not_lt.mpr hopen)]
  rcases hf with h | h <;> simp [h]

theorem main_of_hang (p : Platform) (argv : List String) (e : Env) (device : String)
    (hargs : e.UTL_ILLIOPT = none) (hhelp : e.UTL_TSTOPT_help = false)
    (hdev : findDevice (argv.drop 1) = some device) (hopen : 0 ≤ e.M_open)
    (hf : (session p e e.M_open (channel e)).2 = Flow.hang) :
    (main p argv e).outcome = Outcome.hang := by
  unfold main
  simp only [hargs, hhelp, hdev]
  rw [if_neg (by simp), if_neg (not_lt.mpr hopen)]
  simp [hf]

theorem main_of_fault (p : Platform) (argv : List String) (e : Env) (device : String)
    (hargs : e.UTL_ILLIOPT = none) (hhelp : e.UTL_TSTOPT_help = false)
    (hdev : findDevice (argv.drop 1) = some device) (hopen : 0 ≤ e.M_open)
    (hf : (session p e e.M_open (channel e)).2 = Flow.fault) :
    (main p argv e).outcome = Outcome.fault := by
  unfold main
  simp only [hargs, hhelp, hdev]
  rw [if_neg (by simp), if_neg (not_lt.mpr hopen)]
  simp [hf]

/-- After a successful `M_open`, a run that returns went through the label `abort`. -/
theorem main_exit_cases (p : Platform) (argv : List String) (e : Env) (device : String)
    (hargs : e.UTL_ILLIOPT = none) (hhelp : e.UTL_TSTOPT_help = false)
    (hdev : findDevice (argv.drop 1) = some device) (hopen : 0 ≤ e.M_open)
    (code : Int) (hexit : (main p argv e).outcome = Outcome.exit code) :
    ReachesAbort (session p e e.M_open (channel e)).2 := by
  cases hf : (session p e e.M_open (channel e)).2 with
  | next => exact Or.inl rfl
  | abort => exact Or.inr rfl
  | hang =>
    rw [main_of_hang p argv e device hargs hhelp hdev hopen hf] at hexit
    cases hexit
  | fault =>
    rw [main_of_fault p argv e device hargs hhelp hdev hopen hf] at hexit
    cases hexit

theorem writes_cons (ev : Event) (t : Trace) :
    writes (ev :: t) = (match writeOf ev with
      | some v => v :: writes t
      | none => writes t) := by
  simp only [writes, List.filterMap_cons]
  cases writeOf ev <;> rfl

theorem writes_nil : writes [] = [] := rfl

theorem writes_pollLoop (path : Int) (m : Nat) (R : Int) (l : List Resp) :
    writes (pollLoop path m R l).1 = [] := by
  induction l with
  | nil => rfl
  | cons r rs ih =>
    simp only [pollLoop]
    split_ifs <;> simp [writes_cons, writes_nil, writeOf, ih]

theorem writes_stopCheck (e : Env) (path : Int) : writes (stopCheck e path) = [] := by
  simp only [stopCheck]
  split_ifs <;> simp [writes_cons, writes_nil, writeOf]

theorem writes_periodicLoop (e : Env) (todo n : Nat) (g : Int) :
    writes (periodicLoop e todo n g) = [] := by
  induction todo generalizing n g with
  | zero => rfl
  | succ todo ih =>
    simp only [periodicLoop, writes_append, ih]
    simp [writes_cons, writes_nil, writeOf]

theorem writes_oneShot (e : Env) (path R : Int) : writes (oneShot e path R).1 = [R] := by
  simp only [oneShot]
  split_ifs
  · simp [writes_cons, writes_nil, writeOf]
  · split <;> simp [writes_cons, writes_nil, writeOf]
  · split <;> simp [writes_cons, writes_nil, writeOf]

theorem writes_startStop (e : Env) (path : Int) (m : Nat) (R : Int) :
    writes (startStop e path m R).1 = [(m : Int)] := by
  simp only [startStop]
  split_ifs <;>
    simp [writes_cons, writes_nil, writeOf, writes_pollLoop, writes_stopCheck]

theorem writes_periodic (e : Env) (path R : Int) :
    writes (periodic e path R).1 = [Int.tdiv R 100] := by
  simp only [periodic]
  split_ifs <;> simp [writes_cons, writes_nil, writeOf, writes_periodicLoop]

theorem andThen_reaches_inv (a b : Trace × Flow) (h : ReachesAbort (andThen a b).2) :
    ReachesAbort a.2 ∧ (a.2 = Flow.next → ReachesAbort b.2) := by
  cases ha : a.2 with
  | next => rw [andThen_next a b ha] at h; exact ⟨Or.inl rfl, fun _ => h⟩
  | abort => exact ⟨Or.inr rfl, fun hc => by cases hc⟩
  | hang =>
    have : (andThen a b).2 = Flow.hang := by unfold andThen; rw [ha]
    rw [this] at h
    rcases h with h | h <;> cases h
  | fault =>
    have : (andThen a b).2 = Flow.fault := by unfold andThen; rw [ha]
    rw [this] at h
    rcases h with h | h <;> cases h

theorem oneShot_next_of_reaches (e : Env) (path R : Int) (hw : 0 ≤ e.write1)
    (h : ReachesAbort (oneShot e path R).2) : (oneShot e path R).2 = Flow.next := by
  cases hg : waitLoop 0 e.sigsWait with
  | none =>
    have hh : (oneShot e path R).2 = Flow.hang := by
      simp only [oneShot, if_neg (not_lt.mpr hw), hg]
    rw [hh] at h
    rcases h with h | h <;> cases h
  | some g =>
    by_cases hR : R = 0
    · have hh : (oneShot e path R).2 = Flow.fault := by
        simp only [oneShot, if_neg (not_lt.mpr hw), hg, hR, if_true]
      rw [hh] at h
      rcases h with h | h <;> cases h
    · exact oneShot_flow e path R hw hR (by rw [hg]; rfl)

theorem startStop_next_of_reaches (e : Env) (path : Int) (m : Nat) (R : Int)
    (hw : 0 ≤ e.write2) (h : ReachesAbort (startStop e path m R).2) :
    (startStop e path m R).2 = Flow.next := by
  cases hp : (pollLoop path m R e.pollReads).2 with
  | false =>
    have hh : (startStop e path m R).2 = Flow.hang := by
      simp only [startStop, if_neg (not_lt.mpr hw), hp, if_true]
    rw [hh] at h
    rcases h with h | h <;> cases h
  | true => exact startStop_flow e path m R hw hp

/-- The test phases of a session whose setup and writes succeeded and that reaches the
label `abort`: all three phases ran to their end, with exactly three writes. -/
theorem session_all_ok (p : Platform) (e : Env) (chan : Int) (hsetup : SetupOk p e)
    (hw : WritesOk e) (hf : ReachesAbort (session p e e.M_open chan).2) :
    (session p e e.M_open chan).2 = Flow.next ∧
      writes (session p e e.M_open chan).1 =
        [e.getResolution.out, (maxTimerVal p e.getChannelLen.out : Int),
          Int.tdiv e.getResolution.out 100] := by
  rw [session_of_some p e _ chan _ (setup_ok p e chan hsetup)] at hf ⊢
  rw [andThen_next _ _ rfl] at hf ⊢
  have i1 := andThen_reaches_inv _ _ hf
  have h1 := oneShot_next_of_reaches e e.M_open e.getResolution.out hw.1 i1.1
  have i2 := andThen_reaches_inv _ _ (i1.2 h1)
  have h2 := startStop_next_of_reaches e e.M_open (maxTimerVal p e.getChannelLen.out)
    e.getResolution.out hw.2.1 i2.1
  have h3 := periodic_flow e e.M_open e.getResolution.out hw.2.2
  rw [andThen_next _ _ h1, andThen_next _ _ h2]
  refine ⟨h3, ?_⟩
  simp [writes_setup, writes_oneShot, writes_startStop, writes_periodic]

/-- The busy wait of line 236 never ends while no signal arrives. -/
theorem waitLoop_no_signal (l : List Nat) (h : ∀ k ∈ l, k = 0) : waitLoop 0 l = none := by
  induction l with
  | nil => rfl
  | cons k ks ih =>
    have hk : k = 0 := h k (List.mem_cons_self k ks)
    have hks : ∀ j ∈ ks, j = 0 := fun j hj => h j (List.mem_cons_of_mem k hj)
    subst hk
    have h0 : deliver 0 0 = 0 := rfl
    simp only [waitLoop, h0, if_true]
    exact ih hks

/-- The busy wait of line 236 ends once a signal has arrived. -/
theorem waitLoop_of_signal (l : List Nat) (h : ∃ k ∈ l, 0 < k ∧ k < 4294967296) :
    (waitLoop 0 l).isSome = true := by
  induction l with
  | nil =>
    obtain ⟨k, hk, _⟩ := h
    cases hk
  | cons j js ih =>
    by_cases hg : deliver j 0 = 0
    · simp only [waitLoop, hg, if_true]
      apply ih
      obtain ⟨k, hk, hpos, hlt⟩ := h
      rcases List.mem_cons.mp hk with hkj | hkjs
      · exfalso
        subst hkj
        rw [deliver_zero_eq] at hg
        unfold toI32 at hg
        omega
      · exact ⟨k, hkjs, hpos, hlt⟩
    · simp only [waitLoop, hg, if_false]
      rfl

/-- The poll loop of lines 259-263 never ends while the loop condition holds for
every reading. -/
theorem pollLoop_stuck (path : Int) (m : Nat) (R : Int) (l : List Resp)
    (h : ∀ r ∈ l, pollCond r.out m R = true) : (pollLoop path m R l).2 = false := by
  induction l with
  | nil => rfl
  | cons r rs ih =>
    have hr : pollCond r.out m R = true := h r (List.mem_cons_self r rs)
    have hrs : ∀ q ∈ rs, pollCond q.out m R = true :=
      fun q hq => h q (List.mem_cons_of_mem r hq)
    simp only [pollLoop, hr, if_true]
    exact ih hrs

/-- The poll loop of lines 259-263 ends once a reading makes its condition false. -/
theorem pollLoop_of_reading (path : Int) (m : Nat) (R : Int) (l : List Resp)
    (h : ∃ r ∈ l, pollCond r.out m R = false) : (pollLoop path m R l).2 = true := by
  induction l with
  | nil =>
    obtain ⟨r, hr, _⟩ := h
    cases hr
  | cons q qs ih =>
    by_cases hc : pollCond q.out m R = true
    · simp only [pollLoop, hc, if_true]
      apply ih
      obtain ⟨r, hr, hf⟩ := h
      rcases List.mem_cons.mp hr with hrq | hrqs
      · subst hrq
        rw [hf] at hc
        cases hc
      · exact ⟨r, hrqs, hf⟩
    · simp only [pollLoop, hc]
      rfl

theorem responsive_of_answers (p : Platform) (e : Env) (h : Answers p e) :
    Responsive p e :=
  ⟨waitLoop_of_signal e.sigsWait h.1, pollLoop_of_reading _ _ _ e.pollReads h.2⟩

/-! ## Claims on whole runs of `main` -/

/-- C3 (as amended): for a device that reports the counter width W and a non-zero
resolution R, on which setup and the three `M_write` calls succeed, on which a signal
arrives during the busy wait of the one-shot phase and one counter reading ends the
poll loop of the start/stop phase, `main` returns and the values it passes to
`M_write` are exactly, in this order, R, `maxTimerVal` and R / 100 (C integer
division); for W = 16 and R = 1000 these are 1000, 65535 and 10. -/
theorem main_writes (p : Platform) (argv : List String) (e : Env) (device : String)
    (hargs : e.UTL_ILLIOPT = none) (hhelp : e.UTL_TSTOPT_help = false)
    (hdev : findDevice (argv.drop 1) = some device) (hsetup : SetupOk p e)
    (hw : WritesOk e) (hR : e.getResolution.out ≠ 0) (hans : Answers p e) :
    (main p argv e).outcome = Outcome.exit 0 ∧
      writes (main p argv e).trace =
        [e.getResolution.out, (maxTimerVal p e.getChannelLen.out : Int),
          Int.tdiv e.getResolution.out 100] ∧
      (e.getChannelLen.out = 16 → e.getResolution.out = 1000 →
        writes (main p argv e).trace = [1000, 65535, 10]) := by
  have hf := session_reaches p e (channel e) hR (responsive_of_answers p e hans)
  have hs := session_all_ok p e (channel e) hsetup hw hf
  have hm := main_of_reaches p argv e device hargs hhelp hdev hsetup.1 hf
  have hwr : writes (main p argv e).trace =
      [e.getResolution.out, (maxTimerVal p e.getChannelLen.out : Int),
        Int.tdiv e.getResolution.out 100] := by
    rw [hm]
    simp only [writes_append, hs.2, writes_cleanup]
    simp [writes_cons, writes_nil, writeOf]
  refine ⟨by rw [hm], hwr, ?_⟩
  intro hW hRes
  have h16 : maxTimerVal p ((16 : Nat) : Int) = 2 ^ 16 - 1 :=
    maxTimerVal_of_le p 16 (by decide) (by have := p.longBits_ge; omega)
  have h16b : maxTimerVal p 16 = 65535 := by simpa using h16
  rw [hwr, hW, hRes, h16b]
  decide

/-- Witness for C3: the device `simdev` (width 16, resolution 1000). -/
theorem main_writes_witness :
    (SetupOk lp64 simdev ∧ WritesOk simdev ∧ simdev.getResolution.out ≠ 0 ∧
        Answers lp64 simdev) ∧
      (main lp64 ["m_tmr_veri", "-c=2", "simdev"] simdev).outcome = Outcome.exit 0 ∧
      writes (main lp64 ["m_tmr_veri", "-c=2", "simdev"] simdev).trace =
        [1000, 65535, 10] :=
  ⟨by decide,
    (main_writes lp64 ["m_tmr_veri", "-c=2", "simdev"] simdev "simdev" rfl rfl (by decide)
      (by decide) (by decide) (by decide) (by decide)).1,
    (main_writes lp64 ["m_tmr_veri", "-c=2", "simdev"] simdev "simdev" rfl rfl (by decide)
      (by decide) (by decide) (by decide) (by decide)).2.2 rfl rfl⟩

/-- C3 as stated fails: on the device `devStuck` every call succeeds (width 16,
resolution 1000), but the counter never leaves its preload, the poll loop of lines
259-263 does not end and `main` has written 1000 and 65535 only. -/
theorem stuck_counter_two_writes :
    (SetupOk lp64 devStuck ∧ WritesOk devStuck) ∧
      (main lp64 ["m_tmr_veri", "-c=2", "simdev"] devStuck).outcome = Outcome.hang ∧
      writes (main lp64 ["m_tmr_veri", "-c=2", "simdev"] devStuck).trace = [1000, 65535] ∧
      writes (main lp64 ["m_tmr_veri", "-c=2", "simdev"] devStuck).trace ≠
        [1000, 65535, 10] := by
  decide

/-- C6 (as amended): a run of `main` whose session setup succeeded returns no exit
code other than 0, whatever the calls of the test phases and of the cleanup return
and whether or not the stop diagnostics are printed; and it returns exit code 0
whenever the resolution is non-zero, a signal arrives during the busy wait of line
236 and one counter reading ends the poll loop of lines 259-263. -/
theorem main_exit_zero (p : Platform) (argv : List String) (e : Env) (device : String)
    (hargs : e.UTL_ILLIOPT = none) (hhelp : e.UTL_TSTOPT_help = false)
    (hdev : findDevice (argv.drop 1) = some device) (hsetup : SetupOk p e) :
    (∀ code, (main p argv e).outcome = Outcome.exit code → code = 0) ∧
      (e.getResolution.out ≠ 0 → Answers p e →
        (main p argv e).outcome = Outcome.exit 0) := by
  constructor
  · intro code hexit
    have hf := main_exit_cases p argv e device hargs hhelp hdev hsetup.1 code hexit
    rw [main_of_reaches p argv e device hargs hhelp hdev hsetup.1 hf] at hexit
    simp only [Outcome.exit.injEq] at hexit
    exact hexit.symm
  · intro hR hans
    rw [main_of_reaches p argv e device hargs hhelp hdev hsetup.1
      (session_reaches p e (channel e) hR (responsive_of_answers p e hans))]

/-- Witness for C6: the device `simdev`. -/
theorem main_exit_zero_witness :
    (SetupOk lp64 simdev ∧ simdev.getResolution.out ≠ 0 ∧ Answers lp64 simdev) ∧
      (main lp64 ["m_tmr_veri", "-c=2", "simdev"] simdev).outcome = Outcome.exit 0 :=
  ⟨by decide,
    (main_exit_zero lp64 ["m_tmr_veri", "-c=2", "simdev"] simdev "simdev" rfl rfl
      (by decide) (by decide)).2 (by decide) (by decide)⟩

/-- C6 as stated fails: on the device `devNoSignal` session setup succeeds and every
call succeeds, but no signal arrives; `main` stays in the busy wait of line 236 and
returns no exit code, after the first `M_write` and before any cleanup call. -/
theorem no_signal_no_exit :
    SetupOk lp64 devNoSignal ∧
      (main lp64 ["m_tmr_veri", "-c=2", "simdev"] devNoSignal).outcome = Outcome.hang ∧
      (main lp64 ["m_tmr_veri", "-c=2", "simdev"] devNoSignal).outcome ≠ Outcome.exit 0 ∧
      calls (main lp64 ["m_tmr_veri", "-c=2", "simdev"] devNoSignal).trace =
        [Call.M_open "simdev", Call.UOS_SigInit, Call.UOS_SigInstall,
          Call.M_setstat 3 StatCode.M_MK_IRQ_ENABLE StatVal.TRUE,
          Call.M_setstat 3 StatCode.M_MK_CH_CURRENT (StatVal.num 2),
          Call.M_getstat 3 StatCode.M_LL_CH_TYP, Call.M_getstat 3 StatCode.M_LL_CH_LEN,
          Call.M_getstat 3 StatCode.M_TMR_RESOLUTION,
          Call.M_setstat 3 StatCode.M_TMR_SIGSET_ZERO StatVal.UOS_SIG_USR1,
          Call.M_write 3 1000, Call.UOS_MsecTimerGet,
          Call.M_setstat 3 StatCode.M_TMR_RUN StatVal.M_TMR_START_ONE_SHOT] := by
  decide

/-- C7 fails on the code in its exit code: when the device opens and the channel is
selected but the channel type is not the timer profile, `main` issues no `M_write`
and no run-mode command, and it returns exit code 0 (not 1). -/
theorem profile_mismatch_exit (p : Platform) (argv : List String) (e : Env)
    (device : String) (hargs : e.UTL_ILLIOPT = none) (hhelp : e.UTL_TSTOPT_help = false)
    (hdev : findDevice (argv.drop 1) = some device) (hopen : 0 ≤ e.M_open)
    (hmis : e.getChannelType.out ≠ p.M_CH_PROFILE_TMR) :
    (∀ ev ∈ (main p argv e).trace, Quiet ev) ∧
      (main p argv e).outcome = Outcome.exit 0 := by
  have hs := session_of_none p e e.M_open (channel e)
    (setup_mismatch p e e.M_open (channel e) hmis)
  have hm := main_of_reaches p argv e device hargs hhelp hdev hopen
    (Or.inr (by rw [hs]))
  rw [hm, hs]
  refine ⟨?_, rfl⟩
  intro ev hev
  simp only [List.mem_append, List.mem_singleton] at hev
  rcases hev with (h | h) | h
  · subst h; simp [Quiet, isWrite, isRunCommand]
  · exact quiet_setup p e _ _ ev h
  · exact quiet_cleanup e _ ev h

/-- Witness for C7: the device `devNoTimer`, which reports channel
type 7 where the timer profile is 1; the run ends with exit code 0. -/
theorem profile_mismatch_exit_witness :
    (0 ≤ devNoTimer.M_open ∧ devNoTimer.getChannelType.out ≠ lp64.M_CH_PROFILE_TMR) ∧
      (main lp64 ["m_tmr_veri", "tmr_1"] devNoTimer).outcome = Outcome.exit 0 ∧
      (main lp64 ["m_tmr_veri", "tmr_1"] devNoTimer).outcome ≠ Outcome.exit 1 :=
  ⟨by decide,
    (profile_mismatch_exit lp64 ["m_tmr_veri", "tmr_1"] devNoTimer "tmr_1" rfl rfl
      (by decide) (by decide) (by decide)).2, by decide⟩

/-- C8 (as amended): on every run of `main` in which `M_open` succeeded and which
returns, the last five library calls are, in this order, `M_setstat` of
`M_MK_IRQ_ENABLE` to FALSE, `M_setstat` of `M_TMR_SIGCLR_ZERO`, `UOS_SigRemove`,
`UOS_SigExit` and `M_close`, whatever any of the calls returned; and the run does
return when the device answers the two waiting loops and the resolution is non-zero. -/
theorem cleanup_calls_last (p : Platform) (argv : List String) (e : Env)
    (device : String) (hargs : e.UTL_ILLIOPT = none) (hhelp : e.UTL_TSTOPT_help = false)
    (hdev : findDevice (argv.drop 1) = some device) (hopen : 0 ≤ e.M_open) :
    (∀ code, (main p argv e).outcome = Outcome.exit code →
        cleanupCalls e.M_open <:+ calls (main p argv e).trace) ∧
      (e.getResolution.out ≠ 0 → Responsive p e →
        (main p argv e).outcome = Outcome.exit 0 ∧
          cleanupCalls e.M_open <:+ calls (main p argv e).trace) := by
  have key : ReachesAbort (session p e e.M_open (channel e)).2 →
      (main p argv e).outcome = Outcome.exit 0 ∧
        cleanupCalls e.M_open <:+ calls (main p argv e).trace := by
    intro hf
    rw [main_of_reaches p argv e device hargs hhelp hdev hopen hf]
    refine ⟨rfl, ?_⟩
    simp only [calls_append, calls_cleanup]
    exact List.suffix_append _ _
  exact ⟨fun code hexit =>
      (key (main_exit_cases p argv e device hargs hhelp hdev hopen code hexit)).2,
    fun hR hresp => key (session_reaches p e (channel e) hR hresp)⟩

/-- Witness for C8: the device `simdev`. -/
theorem cleanup_calls_last_witness :
    0 ≤ simdev.M_open ∧
      cleanupCalls 3 <:+ calls (main lp64 ["m_tmr_veri", "-c=2", "simdev"] simdev).trace :=
  ⟨by decide,
    (cleanup_calls_last lp64 ["m_tmr_veri", "-c=2", "simdev"] simdev "simdev" rfl rfl
      (by decide) (by decide)).1 0 (by decide)⟩

/-- C8 as stated fails: when `M_open` fails, `main` returns 1 at line 159 and
`M_open` is its only library call; none of the five cleanup calls is made. -/
theorem open_failure_no_cleanup :
    main lp64 ["m_tmr_veri", "tmr_1"] devNoOpen =
        ⟨[Event.call (Call.M_open "tmr_1"), Event.out (Msg.mdisError "open")],
          Outcome.exit 1⟩ ∧
      ¬ (cleanupCalls devNoOpen.M_open <:+
          calls (main lp64 ["m_tmr_veri", "tmr_1"] devNoOpen).trace) := by
  decide

/-- C9: for an argument list that passed the argument check (no illegal option, no
help request), `main` opens the first argument after the program name whose first
character is not a minus sign, as its first library call; if there is no such
argument it prints the usage text and returns exit code 1 without any library call. -/
theorem main_device_argument (p : Platform) (argv : List String) (e : Env)
    (hargs : e.UTL_ILLIOPT = none) (hhelp : e.UTL_TSTOPT_help = false) :
    (∀ (pre post : List String) (d : String), argv.drop 1 = pre ++ d :: post →
        (∀ a ∈ pre, firstChar a = '-') → firstChar d ≠ '-' →
        (main p argv e).trace.head? = some (Event.call (Call.M_open d)) ∧
          (calls (main p argv e).trace).head? = some (Call.M_open d)) ∧
      ((∀ a ∈ argv.drop 1, firstChar a = '-') →
        main p argv e = ⟨[Event.out Msg.usage], Outcome.exit 1⟩ ∧
          calls (main p argv e).trace = []) := by
  constructor
  · intro pre post d hsplit hpre hd
    have hdev : findDevice (argv.drop 1) = some d := by
      rw [hsplit]; exact findDevice_append pre post d hpre hd
    unfold main
    simp only [hargs, hhelp, hdev]
    rw [if_neg (by simp)]
    split_ifs
    · simp [calls, callOf]
    · split <;> simp [calls, callOf]
  · intro hall
    have hdev : findDevice (argv.drop 1) = none := findDevice_none _ hall
    unfold main
    simp only [hargs, hhelp, hdev]
    rw [if_neg (by simp)]
    simp [calls, callOf]

/-- Witness for C9: the option `-c=2` before the device name. -/
theorem main_device_argument_witness :
    (simdev.UTL_ILLIOPT = none ∧ simdev.UTL_TSTOPT_help = false) ∧
      (main lp64 ["m_tmr_veri", "-c=2", "simdev"] simdev).trace.head? =
        some (Event.call (Call.M_open "simdev")) ∧
      main lp64 ["m_tmr_veri", "-c=2"] simdev = ⟨[Event.out Msg.usage], Outcome.exit 1⟩ :=
  ⟨⟨rfl, rfl⟩,
    ((main_device_argument lp64 ["m_tmr_veri", "-c=2", "simdev"] simdev rfl rfl).1
      ["-c=2"] [] "simdev" rfl (by decide) (by decide)).1,
    ((main_device_argument lp64 ["m_tmr_veri", "-c=2"] simdev rfl rfl).2 (by decide)).1⟩

end MTmrVeri
